import Mathlib

/-!
Verification of the error taxonomy and wire-status translation layer of the
Xline key-value store, embedded from `xline/src/storage/execute_error.rs`.

The embedding covers:
- the `ExecuteError` taxonomy (one Lean constructor per Rust variant, `i64`
  payloads as `Int`, `String` payloads as `String`);
- the derived `Display` rendering (`ExecuteError.display`), one template per
  variant taken from the `error(...)` attribute of each variant;
- the `From<ExecuteError> for tonic::Status` conversion
  (`ExecuteError.toStatus`), arm by arm;
- a structural serialization model for the derived serde round trip.
-/

/-- Status codes of the tonic RPC framework. Only the codes that occur in the
translation arms of the source file are listed; the translation never produces
any other code. -/
inductive Tonic.Code where
  | InvalidArgument
  | OutOfRange
  | NotFound
  | FailedPrecondition
  | Unauthenticated
  | PermissionDenied
  | DeadlineExceeded
  | Internal
  deriving DecidableEq, Repr

/-- Wire-level status, mirroring `tonic::Status::new(code, message)`: a status
code paired with a human-readable message. -/
structure Tonic.Status where
  code : Tonic.Code
  message : String
  deriving DecidableEq, Repr

/-- Modelled from the spec: `ValidationError` lives in the out-of-scope
request-validation subsystem (`crate::request_validation`), whose source is
not part of this core. The spec treats it as an opaque, already-classified
value that knows how to produce its own wire status (its `Into<tonic::Status>`
conversion, the `status` field here) and its own rendering (the `display`
field here). -/
structure ValidationError where
  status : Tonic.Status
  display : String
  deriving DecidableEq, Repr

/-- The `ExecuteError` taxonomy from `execute_error.rs`: one constructor per
Rust variant, in source order, with `i64` payloads embedded as `Int`. -/
inductive ExecuteError where
  | InvalidRequest (e : ValidationError)
  | KeyNotFound
  | RevisionTooLarge (requested current : Int)
  | RevisionCompacted (requested compacted : Int)
  | LeaseNotFound (id : Int)
  | LeaseExpired (id : Int)
  | LeaseTtlTooLarge (ttl : Int)
  | LeaseAlreadyExists (id : Int)
  | AuthNotEnabled
  | AuthFailed
  | UserNotFound (name : String)
  | UserAlreadyExists (name : String)
  | UserAlreadyHasRole (user role : String)
  | NoPasswordUser
  | RoleNotFound (name : String)
  | RoleAlreadyExists (name : String)
  | RoleNotGranted (role : String)
  | RootRoleNotExist
  | PermissionNotGranted
  | PermissionNotGiven
  | InvalidAuthManagement
  | InvalidAuthToken
  | TokenManagerNotInit
  | TokenNotProvided
  | TokenOldRevision (tokenRev currentRev : Int)
  | DbError (detail : String)
  | PermissionDenied
  deriving DecidableEq, Repr

/-- The `Display` rendering generated by thiserror from the `error(...)`
attribute of each variant: the fixed, variant-specific template with the
payload fields substituted in decimal (for `i64`) or verbatim (for `String`).
The `InvalidRequest` variant has its own attribute text `"invalid request"`,
which ignores the nested value. -/
def ExecuteError.display : ExecuteError → String
  | .InvalidRequest _ => "invalid request"
  | .KeyNotFound => "key not found"
  | .RevisionTooLarge a b =>
      "required revision " ++ toString a ++ " is higher than current revision " ++ toString b
  | .RevisionCompacted a b =>
      "required revision " ++ toString a ++ " has been compacted, compacted revision is " ++ toString b
  | .LeaseNotFound i => "lease " ++ toString i ++ " not found"
  | .LeaseExpired i => "lease " ++ toString i ++ " is expired"
  | .LeaseTtlTooLarge t => "lease ttl is too large: " ++ toString t
  | .LeaseAlreadyExists i => "lease " ++ toString i ++ " already exists"
  | .AuthNotEnabled => "auth is not enabled"
  | .AuthFailed => "invalid username or password"
  | .UserNotFound n => "user " ++ n ++ " not found"
  | .UserAlreadyExists n => "user " ++ n ++ " already exists"
  | .UserAlreadyHasRole u r => "user " ++ u ++ " already has role " ++ r
  | .NoPasswordUser => "password was given for no password user"
  | .RoleNotFound n => "role " ++ n ++ " not found"
  | .RoleAlreadyExists n => "role " ++ n ++ " already exists"
  | .RoleNotGranted r => "role " ++ r ++ " is not granted to the user"
  | .RootRoleNotExist => "root user does not have root role"
  | .PermissionNotGranted => "permission not granted to the role"
  | .PermissionNotGiven => "permission not given"
  | .InvalidAuthManagement => "invalid auth management"
  | .InvalidAuthToken => "invalid auth token"
  | .TokenManagerNotInit => "token manager is not initialized"
  | .TokenNotProvided => "token is not provided"
  | .TokenOldRevision a b =>
      "token\x27s revision " ++ toString a ++ " is older than current revision " ++ toString b
  | .DbError s => "db error: " ++ s
  | .PermissionDenied => "permission denied"

/-- The `From<ExecuteError> for tonic::Status` conversion of
`execute_error.rs`, arm by arm. `InvalidRequest` returns the nested
validation error converted by its own conversion; the arms that the source
writes as `err.to_string()` reuse `ExecuteError.display` of the whole input
value. -/
def ExecuteError.toStatus (err : ExecuteError) : Tonic.Status :=
  match err with
  | .InvalidRequest e => e.status
  | .KeyNotFound => ⟨.InvalidArgument, "etcdserver: key not found"⟩
  | .RevisionTooLarge _ _ =>
      ⟨.OutOfRange, "etcdserver: mvcc: required revision is a future revision"⟩
  | .RevisionCompacted _ _ =>
      ⟨.OutOfRange, "etcdserver: mvcc: required revision has been compacted"⟩
  | .LeaseNotFound _ => ⟨.NotFound, "etcdserver: requested lease not found"⟩
  | .LeaseTtlTooLarge _ => ⟨.OutOfRange, "etcdserver: too large lease TTL"⟩
  | .LeaseAlreadyExists _ => ⟨.FailedPrecondition, "etcdserver: lease already exists"⟩
  | .AuthNotEnabled => ⟨.FailedPrecondition, "etcdserver: authentication is not enabled"⟩
  | .AuthFailed =>
      ⟨.InvalidArgument, "etcdserver: authentication failed, invalid user ID or password"⟩
  | .UserNotFound _ => ⟨.FailedPrecondition, "etcdserver: user name not found"⟩
  | .UserAlreadyExists _ => ⟨.FailedPrecondition, "etcdserver: user name already exists"⟩
  | .RoleNotFound _ => ⟨.FailedPrecondition, "etcdserver: role name not found"⟩
  | .RoleAlreadyExists _ => ⟨.FailedPrecondition, "etcdserver: role name already exists"⟩
  | .RoleNotGranted _ => ⟨.FailedPrecondition, "etcdserver: role is not granted to the user"⟩
  | .RootRoleNotExist => ⟨.FailedPrecondition, "etcdserver: root user does not have root role"⟩
  | .PermissionNotGranted =>
      ⟨.FailedPrecondition, "etcdserver: permission is not granted to the role"⟩
  | .PermissionNotGiven => ⟨.InvalidArgument, "etcdserver: permission not given"⟩
  | .InvalidAuthToken | .TokenOldRevision _ _ =>
      ⟨.Unauthenticated, "etcdserver: invalid auth token"⟩
  | .PermissionDenied => ⟨.PermissionDenied, "etcdserver: permission denied"⟩
  | .InvalidAuthManagement => ⟨.InvalidArgument, "etcdserver: invalid auth management"⟩
  | .LeaseExpired _ => ⟨.DeadlineExceeded, err.display⟩
  | .UserAlreadyHasRole _ _ | .NoPasswordUser | .TokenManagerNotInit =>
      ⟨.FailedPrecondition, err.display⟩
  | .TokenNotProvided => ⟨.InvalidArgument, err.display⟩
  | .DbError _ => ⟨.Internal, err.display⟩

/-- Modelled from the spec: a structural serialization field, as produced by
the derive-generated serde implementation that is not itself part of the
visible source. Integer payloads, string payloads and the nested (opaque,
itself serializable) validation error are carried structurally. -/
inductive SerField where
  | int (n : Int)
  | str (s : String)
  | val (v : ValidationError)
  deriving DecidableEq, Repr

/-- Modelled from the spec: the externally tagged structural form of a
serialized `ExecuteError` value, a variant tag plus the payload fields in
declaration order. -/
structure Serialized where
  tag : String
  fields : List SerField
  deriving DecidableEq, Repr

/-- Modelled from the spec: serialization of an `ExecuteError` value into its
tagged structural form, preserving the variant tag and all payload fields. -/
def ExecuteError.serialize : ExecuteError → Serialized
  | .InvalidRequest v => ⟨"InvalidRequest", [.val v]⟩
  | .KeyNotFound => ⟨"KeyNotFound", []⟩
  | .RevisionTooLarge a b => ⟨"RevisionTooLarge", [.int a, .int b]⟩
  | .RevisionCompacted a b => ⟨"RevisionCompacted", [.int a, .int b]⟩
  | .LeaseNotFound i => ⟨"LeaseNotFound", [.int i]⟩
  | .LeaseExpired i => ⟨"LeaseExpired", [.int i]⟩
  | .LeaseTtlTooLarge t => ⟨"LeaseTtlTooLarge", [.int t]⟩
  | .LeaseAlreadyExists i => ⟨"LeaseAlreadyExists", [.int i]⟩
  | .AuthNotEnabled => ⟨"AuthNotEnabled", []⟩
  | .AuthFailed => ⟨"AuthFailed", []⟩
  | .UserNotFound n => ⟨"UserNotFound", [.str n]⟩
  | .UserAlreadyExists n => ⟨"UserAlreadyExists", [.str n]⟩
  | .UserAlreadyHasRole u r => ⟨"UserAlreadyHasRole", [.str u, .str r]⟩
  | .NoPasswordUser => ⟨"NoPasswordUser", []⟩
  | .RoleNotFound n => ⟨"RoleNotFound", [.str n]⟩
  | .RoleAlreadyExists n => ⟨"RoleAlreadyExists", [.str n]⟩
  | .RoleNotGranted r => ⟨"RoleNotGranted", [.str r]⟩
  | .RootRoleNotExist => ⟨"RootRoleNotExist", []⟩
  | .PermissionNotGranted => ⟨"PermissionNotGranted", []⟩
  | .PermissionNotGiven => ⟨"PermissionNotGiven", []⟩
  | .InvalidAuthManagement => ⟨"InvalidAuthManagement", []⟩
  | .InvalidAuthToken => ⟨"InvalidAuthToken", []⟩
  | .TokenManagerNotInit => ⟨"TokenManagerNotInit", []⟩
  | .TokenNotProvided => ⟨"TokenNotProvided", []⟩
  | .TokenOldRevision a b => ⟨"TokenOldRevision", [.int a, .int b]⟩
  | .DbError s => ⟨"DbError", [.str s]⟩
  | .PermissionDenied => ⟨"PermissionDenied", []⟩

/-- Modelled from the spec: deserialization of the tagged structural form back
into an `ExecuteError` value; an unknown tag or a payload of the wrong shape
is rejected with `none`. -/
def ExecuteError.deserialize : Serialized → Option ExecuteError
  | ⟨"InvalidRequest", [.val v]⟩ => some (.InvalidRequest v)
  | ⟨"KeyNotFound", []⟩ => some .KeyNotFound
  | ⟨"RevisionTooLarge", [.int a, .int b]⟩ => some (.RevisionTooLarge a b)
  | ⟨"RevisionCompacted", [.int a, .int b]⟩ => some (.RevisionCompacted a b)
  | ⟨"LeaseNotFound", [.int i]⟩ => some (.LeaseNotFound i)
  | ⟨"LeaseExpired", [.int i]⟩ => some (.LeaseExpired i)
  | ⟨"LeaseTtlTooLarge", [.int t]⟩ => some (.LeaseTtlTooLarge t)
  | ⟨"LeaseAlreadyExists", [.int i]⟩ => some (.LeaseAlreadyExists i)
  | ⟨"AuthNotEnabled", []⟩ => some .AuthNotEnabled
  | ⟨"AuthFailed", []⟩ => some .AuthFailed
  | ⟨"UserNotFound", [.str n]⟩ => some (.UserNotFound n)
  | ⟨"UserAlreadyExists", [.str n]⟩ => some (.UserAlreadyExists n)
  | ⟨"UserAlreadyHasRole", [.str u, .str r]⟩ => some (.UserAlreadyHasRole u r)
  | ⟨"NoPasswordUser", []⟩ => some .NoPasswordUser
  | ⟨"RoleNotFound", [.str n]⟩ => some (.RoleNotFound n)
  | ⟨"RoleAlreadyExists", [.str n]⟩ => some (.RoleAlreadyExists n)
  | ⟨"RoleNotGranted", [.str r]⟩ => some (.RoleNotGranted r)
  | ⟨"RootRoleNotExist", []⟩ => some .RootRoleNotExist
  | ⟨"PermissionNotGranted", []⟩ => some .PermissionNotGranted
  | ⟨"PermissionNotGiven", []⟩ => some .PermissionNotGiven
  | ⟨"InvalidAuthManagement", []⟩ => some .InvalidAuthManagement
  | ⟨"InvalidAuthToken", []⟩ => some .InvalidAuthToken
  | ⟨"TokenManagerNotInit", []⟩ => some .TokenManagerNotInit
  | ⟨"TokenNotProvided", []⟩ => some .TokenNotProvided
  | ⟨"TokenOldRevision", [.int a, .int b]⟩ => some (.TokenOldRevision a b)
  | ⟨"DbError", [.str s]⟩ => some (.DbError s)
  | ⟨"PermissionDenied", []⟩ => some .PermissionDenied
  | _ => none

/-- Helper: a string whose first character is not the character `e` cannot be
the namespace marker `"etcdserver: "` followed by anything. -/
theorem not_marker_of_head {s : String} (c : Char) (hc : s.data.headI = c)
    (hne : c ≠ 'e') : ¬ ∃ r, s = "etcdserver: " ++ r := by
  rintro ⟨r, hr⟩
  apply hne
  rw [← hc, hr]
  rfl

/-- Claim C1 counterexample: the wire message of `RevisionTooLarge` is not the
namespace marker followed by the message text listed in the section 4.2
mapping table; the code inserts an extra `"mvcc: "` segment between the
marker and the table text. -/
theorem c1_counterexample :
    (ExecuteError.RevisionTooLarge 1 2).toStatus.message ≠
      "etcdserver: " ++ "required revision is a future revision" := by
  decide

/-- Claim C1 (amended): for every `ExecuteError` variant other than
`InvalidRequest`, the translation returns exactly the status code of the
section 4.2 mapping table, and for each variant with a fixed message the
exact marker-prefixed message text of the table, except that the messages of
`RevisionTooLarge` and `RevisionCompacted` carry an additional `"mvcc: "`
segment between the namespace marker and the table text. -/
theorem c1_mapping_exact (a b r c lid ttl lae tra trb led : Int)
    (un ue rn ra rg uhr uhrr db : String) :
    ExecuteError.KeyNotFound.toStatus =
      ⟨.InvalidArgument, "etcdserver: key not found"⟩ ∧
    (ExecuteError.RevisionTooLarge a b).toStatus =
      ⟨.OutOfRange, "etcdserver: mvcc: required revision is a future revision"⟩ ∧
    (ExecuteError.RevisionCompacted r c).toStatus =
      ⟨.OutOfRange, "etcdserver: mvcc: required revision has been compacted"⟩ ∧
    (ExecuteError.LeaseNotFound lid).toStatus =
      ⟨.NotFound, "etcdserver: requested lease not found"⟩ ∧
    (ExecuteError.LeaseTtlTooLarge ttl).toStatus =
      ⟨.OutOfRange, "etcdserver: too large lease TTL"⟩ ∧
    (ExecuteError.LeaseAlreadyExists lae).toStatus =
      ⟨.FailedPrecondition, "etcdserver: lease already exists"⟩ ∧
    ExecuteError.AuthNotEnabled.toStatus =
      ⟨.FailedPrecondition, "etcdserver: authentication is not enabled"⟩ ∧
    ExecuteError.AuthFailed.toStatus =
      ⟨.InvalidArgument, "etcdserver: authentication failed, invalid user ID or password"⟩ ∧
    (ExecuteError.UserNotFound un).toStatus =
      ⟨.FailedPrecondition, "etcdserver: user name not found"⟩ ∧
    (ExecuteError.UserAlreadyExists ue).toStatus =
      ⟨.FailedPrecondition, "etcdserver: user name already exists"⟩ ∧
    (ExecuteError.RoleNotFound rn).toStatus =
      ⟨.FailedPrecondition, "etcdserver: role name not found"⟩ ∧
    (ExecuteError.RoleAlreadyExists ra).toStatus =
      ⟨.FailedPrecondition, "etcdserver: role name already exists"⟩ ∧
    (ExecuteError.RoleNotGranted rg).toStatus =
      ⟨.FailedPrecondition, "etcdserver: role is not granted to the user"⟩ ∧
    ExecuteError.RootRoleNotExist.toStatus =
      ⟨.FailedPrecondition, "etcdserver: root user does not have root role"⟩ ∧
    ExecuteError.PermissionNotGranted.toStatus =
      ⟨.FailedPrecondition, "etcdserver: permission is not granted to the role"⟩ ∧
    ExecuteError.PermissionNotGiven.toStatus =
      ⟨.InvalidArgument, "etcdserver: permission not given"⟩ ∧
    ExecuteError.InvalidAuthToken.toStatus =
      ⟨.Unauthenticated, "etcdserver: invalid auth token"⟩ ∧
    (ExecuteError.TokenOldRevision tra trb).toStatus =
      ⟨.Unauthenticated, "etcdserver: invalid auth token"⟩ ∧
    ExecuteError.PermissionDenied.toStatus =
      ⟨.PermissionDenied, "etcdserver: permission denied"⟩ ∧
    ExecuteError.InvalidAuthManagement.toStatus =
      ⟨.InvalidArgument, "etcdserver: invalid auth management"⟩ ∧
    (ExecuteError.LeaseExpired led).toStatus.code = .DeadlineExceeded ∧
    (ExecuteError.UserAlreadyHasRole uhr uhrr).toStatus.code = .FailedPrecondition ∧
    ExecuteError.NoPasswordUser.toStatus.code = .FailedPrecondition ∧
    ExecuteError.TokenManagerNotInit.toStatus.code = .FailedPrecondition ∧
    ExecuteError.TokenNotProvided.toStatus.code = .InvalidArgument ∧
    (ExecuteError.DbError db).toStatus.code = .Internal :=
  ⟨rfl, rfl, rfl, rfl, rfl, rfl, rfl, rfl, rfl, rfl, rfl, rfl, rfl,
   rfl, rfl, rfl, rfl, rfl, rfl, rfl, rfl, rfl, rfl, rfl, rfl, rfl⟩

/-- Claim C2: translating `InvalidRequest v` yields exactly the wire status
that the nested validation error `v` produces through its own conversion;
the translation short-circuits entirely to the nested error. -/
theorem c2_delegation_transparent (v : ValidationError) :
    (ExecuteError.InvalidRequest v).toStatus = v.status := rfl

/-- Claim C3 counterexample: the wire message of the delegated-via-self
variant `LeaseExpired` does not begin with the namespace marker
`"etcdserver: "`; at lease id 1 it is the bare rendering
`"lease 1 is expired"`. -/
theorem c3_counterexample :
    ¬ ∃ r, (ExecuteError.LeaseExpired 1).toStatus.message = "etcdserver: " ++ r :=
  not_marker_of_head 'l' rfl (by decide)

/-- Claim C3 (amended): the wire message begins with the fixed namespace
marker `"etcdserver: "` for every fixed-message variant of the mapping table,
but not for the six delegated-via-self variants (`LeaseExpired`,
`UserAlreadyHasRole`, `NoPasswordUser`, `TokenManagerNotInit`,
`TokenNotProvided`, `DbError`), whose messages are the bare default
renderings. -/
theorem c3_namespace_marker (a b r c lid ttl lae tra trb led : Int)
    (un ue rn ra rg uhr uhrr db : String) :
    (∃ m, ExecuteError.KeyNotFound.toStatus.message = "etcdserver: " ++ m) ∧
    (∃ m, (ExecuteError.RevisionTooLarge a b).toStatus.message = "etcdserver: " ++ m) ∧
    (∃ m, (ExecuteError.RevisionCompacted r c).toStatus.message = "etcdserver: " ++ m) ∧
    (∃ m, (ExecuteError.LeaseNotFound lid).toStatus.message = "etcdserver: " ++ m) ∧
    (∃ m, (ExecuteError.LeaseTtlTooLarge ttl).toStatus.message = "etcdserver: " ++ m) ∧
    (∃ m, (ExecuteError.LeaseAlreadyExists lae).toStatus.message = "etcdserver: " ++ m) ∧
    (∃ m, ExecuteError.AuthNotEnabled.toStatus.message = "etcdserver: " ++ m) ∧
    (∃ m, ExecuteError.AuthFailed.toStatus.message = "etcdserver: " ++ m) ∧
    (∃ m, (ExecuteError.UserNotFound un).toStatus.message = "etcdserver: " ++ m) ∧
    (∃ m, (ExecuteError.UserAlreadyExists ue).toStatus.message = "etcdserver: " ++ m) ∧
    (∃ m, (ExecuteError.RoleNotFound rn).toStatus.message = "etcdserver: " ++ m) ∧
    (∃ m, (ExecuteError.RoleAlreadyExists ra).toStatus.message = "etcdserver: " ++ m) ∧
    (∃ m, (ExecuteError.RoleNotGranted rg).toStatus.message = "etcdserver: " ++ m) ∧
    (∃ m, ExecuteError.RootRoleNotExist.toStatus.message = "etcdserver: " ++ m) ∧
    (∃ m, ExecuteError.PermissionNotGranted.toStatus.message = "etcdserver: " ++ m) ∧
    (∃ m, ExecuteError.PermissionNotGiven.toStatus.message = "etcdserver: " ++ m) ∧
    (∃ m, ExecuteError.InvalidAuthToken.toStatus.message = "etcdserver: " ++ m) ∧
    (∃ m, (ExecuteError.TokenOldRevision tra trb).toStatus.message = "etcdserver: " ++ m) ∧
    (∃ m, ExecuteError.PermissionDenied.toStatus.message = "etcdserver: " ++ m) ∧
    (∃ m, ExecuteError.InvalidAuthManagement.toStatus.message = "etcdserver: " ++ m) ∧
    ¬ (∃ m, (ExecuteError.LeaseExpired led).toStatus.message = "etcdserver: " ++ m) ∧
    ¬ (∃ m, (ExecuteError.UserAlreadyHasRole uhr uhrr).toStatus.message = "etcdserver: " ++ m) ∧
    ¬ (∃ m, ExecuteError.NoPasswordUser.toStatus.message = "etcdserver: " ++ m) ∧
    ¬ (∃ m, ExecuteError.TokenManagerNotInit.toStatus.message = "etcdserver: " ++ m) ∧
    ¬ (∃ m, ExecuteError.TokenNotProvided.toStatus.message = "etcdserver: " ++ m) ∧
    ¬ (∃ m, (ExecuteError.DbError db).toStatus.message = "etcdserver: " ++ m) :=
  ⟨⟨"key not found", rfl⟩,
   ⟨"mvcc: required revision is a future revision", rfl⟩,
   ⟨"mvcc: required revision has been compacted", rfl⟩,
   ⟨"requested lease not found", rfl⟩,
   ⟨"too large lease TTL", rfl⟩,
   ⟨"lease already exists", rfl⟩,
   ⟨"authentication is not enabled", rfl⟩,
   ⟨"authentication failed, invalid user ID or password", rfl⟩,
   ⟨"user name not found", rfl⟩,
   ⟨"user name already exists", rfl⟩,
   ⟨"role name not found", rfl⟩,
   ⟨"role name already exists", rfl⟩,
   ⟨"role is not granted to the user", rfl⟩,
   ⟨"root user does not have root role", rfl⟩,
   ⟨"permission is not granted to the role", rfl⟩,
   ⟨"permission not given", rfl⟩,
   ⟨"invalid auth token", rfl⟩,
   ⟨"invalid auth token", rfl⟩,
   ⟨"permission denied", rfl⟩,
   ⟨"invalid auth management", rfl⟩,
   not_marker_of_head 'l' rfl (by decide),
   not_marker_of_head 'u' rfl (by decide),
   not_marker_of_head 'p' rfl (by decide),
   not_marker_of_head 't' rfl (by decide),
   not_marker_of_head 't' rfl (by decide),
   not_marker_of_head 'd' rfl (by decide)⟩

/-- Claim C4: the translation drops the revision payload of
`TokenOldRevision`: all payload values produce the identical wire status,
which coincides with the wire status of `InvalidAuthToken`, namely the
`Unauthenticated` code with the fixed marker-prefixed message
`"etcdserver: invalid auth token"`. -/
theorem c4_payload_suppression (a b c d : Int) :
    (ExecuteError.TokenOldRevision a b).toStatus =
      (ExecuteError.TokenOldRevision c d).toStatus ∧
    (ExecuteError.TokenOldRevision a b).toStatus =
      ExecuteError.InvalidAuthToken.toStatus ∧
    ExecuteError.InvalidAuthToken.toStatus =
      ⟨.Unauthenticated, "etcdserver: invalid auth token"⟩ :=
  ⟨rfl, rfl, rfl⟩

/-- Claim C5: for each delegated-via-self variant (`LeaseExpired`,
`UserAlreadyHasRole`, `NoPasswordUser`, `TokenManagerNotInit`,
`TokenNotProvided`, `DbError`) the wire message equals the default
human-readable rendering of that variant, and the renderings follow the
section 4.1 templates. -/
theorem c5_delegated_via_self (lid : Int) (u ro s : String) :
    (ExecuteError.LeaseExpired lid).toStatus.message =
      (ExecuteError.LeaseExpired lid).display ∧
    (ExecuteError.UserAlreadyHasRole u ro).toStatus.message =
      (ExecuteError.UserAlreadyHasRole u ro).display ∧
    ExecuteError.NoPasswordUser.toStatus.message =
      ExecuteError.NoPasswordUser.display ∧
    ExecuteError.TokenManagerNotInit.toStatus.message =
      ExecuteError.TokenManagerNotInit.display ∧
    ExecuteError.TokenNotProvided.toStatus.message =
      ExecuteError.TokenNotProvided.display ∧
    (ExecuteError.DbError s).toStatus.message = (ExecuteError.DbError s).display ∧
    (ExecuteError.LeaseExpired lid).display =
      "lease " ++ toString lid ++ " is expired" ∧
    (ExecuteError.DbError s).display = "db error: " ++ s ∧
    ExecuteError.NoPasswordUser.display = "password was given for no password user" ∧
    ExecuteError.TokenManagerNotInit.display = "token manager is not initialized" ∧
    ExecuteError.TokenNotProvided.display = "token is not provided" ∧
    (ExecuteError.UserAlreadyHasRole u ro).display =
      "user " ++ u ++ " already has role " ++ ro :=
  ⟨rfl, rfl, rfl, rfl, rfl, rfl, rfl, rfl, rfl, rfl, rfl, rfl⟩

/-- Claim C6 counterexample: rendering `InvalidRequest v` is not the rendering
of the nested validation error `v`; for a nested value rendering as
`"sample validation message"` the wrapper still renders as the fixed text
`"invalid request"`. -/
theorem c6_counterexample :
    (ExecuteError.InvalidRequest
        ⟨⟨.InvalidArgument, "x"⟩, "sample validation message"⟩).display ≠
      (ValidationError.mk ⟨.InvalidArgument, "x"⟩ "sample validation message").display := by
  decide

/-- Claim C6 (amended): the translation of `InvalidRequest` is fully delegated
to the nested validation error, but its human-readable rendering is not: the
variant carries its own fixed template and renders as `"invalid request"`
for every nested value. -/
theorem c6_rendering_not_delegated (v : ValidationError) :
    (ExecuteError.InvalidRequest v).toStatus = v.status ∧
    (ExecuteError.InvalidRequest v).display = "invalid request" :=
  ⟨rfl, rfl⟩

/-- Claim C7: for every variant whose rendering embeds payload fields, the
rendered message follows the fixed variant-specific template, so it contains
the payload values exactly as supplied and in payload order; in particular
`LeaseNotFound id` decomposes around the decimal form of `id`, and
`RevisionCompacted r c` decomposes around the decimal form of `r` followed by
that of `c`. -/
theorem c7_payload_fidelity (a b r c lid led ttl lae tra trb : Int)
    (un ue u ro rn ra rg s : String) :
    (ExecuteError.RevisionTooLarge a b).display =
      "required revision " ++ toString a ++ " is higher than current revision " ++ toString b ∧
    (ExecuteError.RevisionCompacted r c).display =
      "required revision " ++ toString r ++
        " has been compacted, compacted revision is " ++ toString c ∧
    (ExecuteError.LeaseNotFound lid).display =
      "lease " ++ toString lid ++ " not found" ∧
    (ExecuteError.LeaseExpired led).display =
      "lease " ++ toString led ++ " is expired" ∧
    (ExecuteError.LeaseTtlTooLarge ttl).display =
      "lease ttl is too large: " ++ toString ttl ∧
    (ExecuteError.LeaseAlreadyExists lae).display =
      "lease " ++ toString lae ++ " already exists" ∧
    (ExecuteError.UserNotFound un).display = "user " ++ un ++ " not found" ∧
    (ExecuteError.UserAlreadyExists ue).display = "user " ++ ue ++ " already exists" ∧
    (ExecuteError.UserAlreadyHasRole u ro).display =
      "user " ++ u ++ " already has role " ++ ro ∧
    (ExecuteError.RoleNotFound rn).display = "role " ++ rn ++ " not found" ∧
    (ExecuteError.RoleAlreadyExists ra).display = "role " ++ ra ++ " already exists" ∧
    (ExecuteError.RoleNotGranted rg).display =
      "role " ++ rg ++ " is not granted to the user" ∧
    (ExecuteError.TokenOldRevision tra trb).display =
      "token\x27s revision " ++ toString tra ++
        " is older than current revision " ++ toString trb ∧
    (ExecuteError.DbError s).display = "db error: " ++ s ∧
    (∃ p q, (ExecuteError.LeaseNotFound lid).display = p ++ toString lid ++ q) ∧
    (∃ p q, (ExecuteError.RevisionCompacted r c).display =
      p ++ toString r ++ q ++ toString c) :=
  ⟨rfl, rfl, rfl, rfl, rfl, rfl, rfl, rfl, rfl, rfl, rfl, rfl, rfl, rfl,
   ⟨"lease ", " not found", rfl⟩,
   ⟨"required revision ", " has been compacted, compacted revision is ", rfl⟩⟩

/-- Claim C8: the translation is a total pure function: every constructible
`ExecuteError` value is mapped to a wire status, including payload boundary
values such as a zero ttl and negative revision numbers. -/
theorem c8_totality (e : ExecuteError) :
    (∃ code msg, e.toStatus = ⟨code, msg⟩) ∧
    (ExecuteError.LeaseTtlTooLarge 0).toStatus =
      ⟨.OutOfRange, "etcdserver: too large lease TTL"⟩ ∧
    (ExecuteError.RevisionTooLarge (-1) (-2)).toStatus =
      ⟨.OutOfRange, "etcdserver: mvcc: required revision is a future revision"⟩ :=
  ⟨⟨e.toStatus.code, e.toStatus.message, rfl⟩, rfl, rfl⟩

/-- Claim C9: structural serialization round-trips: deserializing the
serialization of any `ExecuteError` value yields back a structurally equal
value, preserving the variant tag and all payload fields, independently of
any wire-status translation. -/
theorem c9_serialization_roundtrip (e : ExecuteError) :
    ExecuteError.deserialize (ExecuteError.serialize e) = some e := by
  cases e <;> rfl

/-- Claim C10: for `AuthFailed`, the wire message is
`"etcdserver: authentication failed, invalid user ID or password"` while the
canonical debug rendering is the distinct string
`"invalid username or password"`; the wire message is not the rendering with
the namespace marker attached. -/
theorem c10_authfailed_distinct_phrasing :
    ExecuteError.AuthFailed.toStatus =
      ⟨.InvalidArgument, "etcdserver: authentication failed, invalid user ID or password"⟩ ∧
    ExecuteError.AuthFailed.display = "invalid username or password" ∧
    ExecuteError.AuthFailed.toStatus.message ≠
      "etcdserver: " ++ ExecuteError.AuthFailed.display := by
  refine ⟨rfl, rfl, ?_⟩
  decide
